import Mathlib

/-!
Verification of the `ValidityPretrainAgent` trajectory recorder.

Shallow embedding of the trace-validity / reward-aggregation logic of
`agents/agents.py` (class `ValidityPretrainAgent`, lines 725-914):
buffer allocation (`init_buffers`), record initialisation (`init_records`),
the `reset` / `act` / `observe` lifecycle, the post-episode validity pass
(`_compute_action_validity`) and the persistence gate (`write_trace`).

Modelling conventions:
* numpy buffers of shape `(1, T, *component_shape)` are modelled as
  `List Row` — a Python-level list along the leading axis of size 1 whose
  single element is the row of `T` per-timestep values; component shapes
  are collapsed to one rational per timestep.  Keeping the leading axis
  explicit matters: the source iterates `range(len(control_buffer))`, and
  Python's `len` on such an array is the size of the leading axis.
* `np.ndarray(shape=...)` allocates without initialising, so `init_buffers`
  takes an `UninitMem` oracle supplying whatever values happen to be in the
  allocated memory.
* Python `dict`s keyed by component name are association lists; fallible
  operations (missing key, out-of-range index, list/array type confusion)
  return `none`.
* record accumulators (`record_reward` etc.) are a Python list of arrays
  right after `init_records` and a single concatenated array right after a
  flush (`write_trace` reassigns them); `PyRec` carries both shapes.
  Calling `.append` on the array shape (an `AttributeError` in Python) and
  `np.concatenate` on an empty list (a `ValueError`) are `none`.
* external collaborators (the behaviour planner producing actions, the
  environment's `aggregate_reward`, `time.strftime`) enter as parameters;
  the filesystem is a `tracesDirExists` flag plus a list of written files.
-/

/-- One row of a numpy buffer: the `T` per-timestep values of a component. -/
abbrev Row := List ℚ

/-- A Python value that is either a list of numpy arrays (as after
`init_records` and during the appends of `write_trace`) or a single numpy
array (as after the `np.concatenate` reassignment in `write_trace`). -/
inductive PyRec (α : Type) where
  | lst : List (List α) → PyRec α
  | arr : List α → PyRec α
deriving Repr, DecidableEq

/-- Python `list.append(x)` on a record entry; an array has no `.append`
(Python raises `AttributeError`). -/
def PyRec.push : PyRec α → List α → Option (PyRec α)
  | .lst l, x => some (.lst (l ++ [x]))
  | .arr _, _ => none

/-- Python `np.concatenate` applied to a record entry: concatenating a list of 1-D
arrays flattens it; the empty list (`ValueError`) and a bare 1-D array
(iterated as zero-dimensional scalars) fail. -/
def PyRec.concat : PyRec α → Option (PyRec α)
  | .lst [] => none
  | .lst (x :: l) => some (.arr ((x :: l).flatten))
  | .arr _ => none

/-- The payload of a record entry that is a single concatenated array. -/
def PyRec.asArr : PyRec α → Option (List α)
  | .arr x => some x
  | .lst _ => none

/-- Contents of uninitialised memory handed out by `np.ndarray(shape=...)`:
whatever values the allocator finds for each named state/action component,
and for the reward and terminal buffers. -/
structure UninitMem where
  s : String → ℕ → ℚ
  a : String → ℕ → ℚ
  r : ℕ → ℚ
  t : ℕ → Bool

/-- One `.npz` archive produced by `np.savez_compressed`: directory, file
name, and the named arrays it stores (`**record_states`,
`**record_actions`, `terminal=...`, `reward=...`). -/
structure TraceFile where
  dir : String
  name : String
  states : List (String × Row)
  actions : List (String × Row)
  terminal : List Bool
  reward : Row
deriving Repr, DecidableEq

/-- The mutable fields of a `ValidityPretrainAgent`, plus the observable
filesystem effects.  Buffers have numpy shape `(1, max_timesteps)` per
component (outer list = leading axis of size 1). -/
structure AgentState where
  maxTimesteps : ℕ
  index : ℕ
  episodes : ℕ
  rewardThreshold : ℚ
  tracesDir : String
  statesSpec : List String
  actionsSpec : List String
  statesBuffers : List (String × List Row)
  actionsBuffers : List (String × List Row)
  rewardBuffers : List Row
  terminalBuffers : List (List Bool)
  recordStates : List (String × PyRec ℚ)
  recordActions : List (String × PyRec ℚ)
  recordTerminal : PyRec Bool
  recordReward : PyRec ℚ
  tracesDirExists : Bool
  files : List TraceFile
deriving Repr, DecidableEq

/-- Assignment `l[i] = v` on a Python list / 1-D numpy row: in-bounds
assignment, `IndexError` (`none`) otherwise. -/
def setNth? (l : List α) (i : ℕ) (v : α) : Option (List α) :=
  if i < l.length then some (l.set i v) else none

/-- Assignment `buffer[0, i] = v` on a `(1, T)`-shaped buffer: writes into
row 0. -/
def updateRow0 (b : List (List α)) (i : ℕ) (v : α) : Option (List (List α)) :=
  match b with
  | [] => none
  | row :: rest => (setNth? row i v).map (· :: rest)

/-- Replace the value stored under key `k` (Python `d[k] = v` on an existing
key; dict keys are unique, so replacing the first match suffices). -/
def assocSet (l : List (String × α)) (k : String) (v : α) : List (String × α) :=
  match l with
  | [] => []
  | (k', v') :: rest => if k' = k then (k, v) :: rest else (k', v') :: assocSet rest k v

/-- Python `range(a, b)` over naturals. -/
def pyRange (a b : ℕ) : List ℕ := (List.range b).drop a

/-- The numpy slice-assignment `row[i:j] = v` (broadcast of a scalar). -/
def fillSlice (row : Row) (i j : ℕ) (v : ℚ) : Row :=
  row.mapIdx fun k x => if i ≤ k ∧ k < j then v else x

/-- Source `agents.py:760` `init_buffers`: fresh `(1, T)`-shaped buffers per
component (`np.ndarray` — contents come uninitialised from `mem`). -/
def initBuffers (mem : UninitMem) (s : AgentState) : AgentState :=
  { s with
    terminalBuffers := [(List.range s.maxTimesteps).map mem.t]
    rewardBuffers := [(List.range s.maxTimesteps).map mem.r]
    statesBuffers := s.statesSpec.map fun n => (n, [(List.range s.maxTimesteps).map (mem.s n)])
    actionsBuffers := s.actionsSpec.map fun n => (n, [(List.range s.maxTimesteps).map (mem.a n)]) }

/-- Source `agents.py:774` `init_records`: every accumulator becomes a fresh
empty Python list. -/
def initRecords (s : AgentState) : AgentState :=
  { s with
    recordStates := s.statesSpec.map fun n => (n, PyRec.lst [])
    recordActions := s.actionsSpec.map fun n => (n, PyRec.lst [])
    recordTerminal := PyRec.lst []
    recordReward := PyRec.lst [] }

/-- Source `agents.py:780` `reset`: re-allocate buffers, re-initialise records,
zero the cursor.  (Re-creating the external `BehaviorAgent` and setting its
destination have no footprint in this state.) -/
def reset (mem : UninitMem) (s : AgentState) : AgentState :=
  { initRecords (initBuffers mem s) with index := 0 }

/-- The recording loops of `act` (`agents.py:798-802`): for each name in the
spec, store the provided value at `[0, index]` of that component's buffer.
Missing keys (`KeyError`) and out-of-range writes are `none`. -/
def recordInto (spec : List String) (vals : List (String × ℚ))
    (bufs : List (String × List Row)) (idx : ℕ) : Option (List (String × List Row)) :=
  match spec with
  | [] => some bufs
  | n :: rest => do
      let v ← vals.lookup n
      let buf ← bufs.lookup n
      let buf' ← updateRow0 buf idx v
      recordInto rest vals (assocSet bufs n buf') idx

/-- Source `agents.py:790` `act`: records the environment states and the
behaviour-planner's converted actions at the current cursor and returns the
actions; the cursor advance on line 804 is commented out in the source.
The planner query and `control_to_actions` conversion are external, so the
resulting `actionVals` enter as a parameter. -/
def act (stateVals actionVals : List (String × ℚ)) (s : AgentState) :
    Option (AgentState × List (String × ℚ)) := do
  let sb ← recordInto s.statesSpec stateVals s.statesBuffers s.index
  let ab ← recordInto s.actionsSpec actionVals s.actionsBuffers s.index
  some ({ s with statesBuffers := sb, actionsBuffers := ab }, actionVals)

/-- Inner scan of `_compute_action_validity` (`agents.py:870-876`):
`for j in range(i, len(control_buffer) - 1)` — comparing `control[0, j]`
with `control[0, j+1]`, collecting `reward[0, j]` on a match; on the first
mismatch, broadcast the aggregated reward over `reward[0, i:j]` and break.
Returns the final `validity` counter and the (possibly rewritten) reward
row; falling off the range without a break leaves the rewards untouched. -/
def cavScan (aggregate : List ℚ → ℚ → ℚ → ℚ) (ctrlRow : Row) (i : ℕ)
    (js : List ℕ) (validity : ℕ) (acc : List ℚ) (rewRow : Row) : Option (ℕ × Row) :=
  match js with
  | [] => some (validity, rewRow)
  | j :: rest =>
      match ctrlRow.get? j, ctrlRow.get? (j + 1) with
      | some a, some b =>
          if a = b then
            match rewRow.get? j with
            | some r => cavScan aggregate ctrlRow i rest (validity + 1) (acc ++ [r]) rewRow
            | none => none
          else
            some (validity, fillSlice rewRow i j (aggregate acc 150 (-2000)))
      | _, _ => none

/-- Outer loop of `_compute_action_validity` (`agents.py:866-878`):
`for i in range(len(control_buffer))` — threading the reward row and the
validity row (`actions_buffers['validity'][0, i] = validity`). -/
def cavLoop (aggregate : List ℚ → ℚ → ℚ → ℚ) (ctrlRow : Row) (outerLen : ℕ)
    (is : List ℕ) (rewRow valRow : Row) : Option (Row × Row) :=
  match is with
  | [] => some (rewRow, valRow)
  | i :: rest => do
      let (v, rew') ← cavScan aggregate ctrlRow i (pyRange i (outerLen - 1)) 1 [] rewRow
      let val' ← setNth? valRow i (v : ℚ)
      cavLoop aggregate ctrlRow outerLen rest rew' val'

/-- Source `agents.py:862` `_compute_action_validity`: note that the loop bounds
use `len(control_buffer)`, the size of the buffer's *leading* axis
(`(1, T)`-shaped, hence 1), while the element accesses index row 0 by
timestep.  `aggregate` stands for the external `env.aggregate_reward`,
called with `r_max=150.0, r_min=-2000`. -/
def computeActionValidity (aggregate : List ℚ → ℚ → ℚ → ℚ) (s : AgentState) :
    Option AgentState := do
  let ctrlBuf ← s.actionsBuffers.lookup "control"
  let valBuf ← s.actionsBuffers.lookup "validity"
  let ctrlRow ← ctrlBuf.head?
  let rewRow ← s.rewardBuffers.head?
  let valRow ← valBuf.head?
  let (rew', val') ← cavLoop aggregate ctrlRow ctrlBuf.length
      (List.range ctrlBuf.length) rewRow valRow
  some { s with
         rewardBuffers := rew' :: s.rewardBuffers.tail
         actionsBuffers := assocSet s.actionsBuffers "validity" (val' :: valBuf.tail) }

/-- The persistence gate of `write_trace` (`agents.py:810`):
`sum(self.record_reward) < self.reward_threshold * len(self.record_reward)`.
On the reachable record shapes: a fresh empty list sums to the integer `0`
with length `0`; a concatenated array sums and measures elementwise.
(A non-empty Python list of arrays would make the comparison elementwise
and the `if` raise — `none`.) -/
def gateRejects (r : PyRec ℚ) (threshold : ℚ) : Option Bool :=
  match r with
  | .lst [] => some (decide ((0 : ℚ) < threshold * 0))
  | .lst (_ :: _) => none
  | .arr x => some (decide (x.sum < threshold * x.length))

/-- Slice `buffer[0, :index]` — the initial segment of row 0 (numpy slicing
never raises on an over-long bound). -/
def sliceRow0 (b : List (List α)) (index : ℕ) : Option (List α) :=
  b.head?.map (·.take index)

/-- The append loops of `write_trace` (`agents.py:816-820`): for each name
in the spec, `record[name].append(np.array(buffer[name][0, :index]))`. -/
def appendRecords (spec : List String) (recs : List (String × PyRec ℚ))
    (bufs : List (String × List Row)) (index : ℕ) : Option (List (String × PyRec ℚ)) :=
  match spec with
  | [] => some recs
  | n :: rest => do
      let r ← recs.lookup n
      let buf ← bufs.lookup n
      let sl ← sliceRow0 buf index
      let r' ← r.push sl
      appendRecords rest (assocSet recs n r') bufs index

/-- Source `util.fmap(np.concatenate, xs, depth=1)`: concatenate every entry
of the record dict, keeping keys. -/
def concatRecords : List (String × PyRec ℚ) → Option (List (String × PyRec ℚ))
  | [] => some []
  | (n, r) :: rest => do
      let r' ← r.concat
      let rest' ← concatRecords rest
      some ((n, r') :: rest')

/-- Extract the concatenated arrays of a record dict, keeping keys (the
arrays handed to `np.savez_compressed`). -/
def recordArrays : List (String × PyRec ℚ) → Option (List (String × Row))
  | [] => some []
  | (n, r) :: rest => do
      let x ← r.asArr
      let rest' ← recordArrays rest
      some ((n, x) :: rest')

/-- Source `agents.py:807` `write_trace`: the local `index` is set to
`self.max_timesteps` (line 808), so every slice takes the full capacity.
If the gate rejects, only a message is printed and the state is unchanged.
Otherwise the current buffers are appended to the record accumulators, the
traces directory is created when absent (the sorted listing of existing
`trace-` files on lines 827-830 is never used afterwards), the accumulators
are reassigned to their per-name concatenations, and one compressed archive
`trace-<episodes>-<timestamp>.npz` is written with all named state arrays,
all named action arrays, `terminal` and `reward`.  `timestamp` stands for
the external `time.strftime('%Y%m%d-%H%M%S')`. -/
def writeTrace (timestamp : String) (s : AgentState) : Option AgentState := do
  let index := s.maxTimesteps
  let reject ← gateRejects s.recordReward s.rewardThreshold
  if reject then
    some s
  else do
    let rs ← appendRecords s.statesSpec s.recordStates s.statesBuffers index
    let ra ← appendRecords s.actionsSpec s.recordActions s.actionsBuffers index
    let tsl ← sliceRow0 s.terminalBuffers index
    let rt ← s.recordTerminal.push tsl
    let rsl ← sliceRow0 s.rewardBuffers index
    let rr ← s.recordReward.push rsl
    let filename := "trace-" ++ toString s.episodes ++ "-" ++ timestamp ++ ".npz"
    let rs' ← concatRecords rs
    let ra' ← concatRecords ra
    let rt' ← rt.concat
    let rr' ← rr.concat
    let fStates ← recordArrays rs'
    let fActions ← recordArrays ra'
    let fTerminal ← rt'.asArr
    let fReward ← rr'.asArr
    some { s with
           recordStates := rs'
           recordActions := ra'
           recordTerminal := rt'
           recordReward := rr'
           tracesDirExists := true
           files := s.files ++ [{ dir := s.tracesDir, name := filename,
                                  states := fStates, actions := fActions,
                                  terminal := fTerminal, reward := fReward }] }

/-- Source `agents.py:851` `observe`: record the reward and terminal flag at the
current cursor, advance the cursor; on a terminal step, bump the episode
counter, run the validity pass and attempt the trace write. -/
def observe (aggregate : List ℚ → ℚ → ℚ → ℚ) (timestamp : String)
    (reward : ℚ) (terminal : Bool) (s : AgentState) : Option AgentState := do
  let rb ← updateRow0 s.rewardBuffers s.index reward
  let tb ← updateRow0 s.terminalBuffers s.index terminal
  let s1 := { s with rewardBuffers := rb, terminalBuffers := tb, index := s.index + 1 }
  if terminal then
    let s2 := { s1 with episodes := s1.episodes + 1 }
    let s3 ← computeActionValidity aggregate s2
    writeTrace timestamp s3
  else
    some s1

/-- The clamped-sum aggregation used in the spec's scenarios:
`min(r_max, max(r_min, sum(rewards)))`. -/
def clampedSum (rewards : List ℚ) (rMax rMin : ℚ) : ℚ :=
  min rMax (max rMin rewards.sum)

/-- The run length the claim attributes to a start index: the number of
consecutive positions `j` scanned forward from `i` at which
`control[j] == control[j+1]`, stopping at the first mismatch or at the last
index. -/
def claimedMatches : List ℚ → ℕ
  | a :: b :: rest => if a = b then claimedMatches (b :: rest) + 1 else 0
  | _ => 0

/-- The value `validity[i]` as the claim states it: `1 +` the forward-scan
match count starting at `i`. -/
def claimedValidity (control : List ℚ) (i : ℕ) : ℕ :=
  1 + claimedMatches (control.drop i)

/-! ## Concrete episode states for the spec's scenarios -/

/-- An uninitialised-memory oracle that happens to hand out zeros. -/
def memZero : UninitMem := ⟨fun _ _ => 0, fun _ _ => 0, fun _ => 0, fun _ => false⟩

/-- An uninitialised-memory oracle that hands out ones (and `true` flags). -/
def memOne : UninitMem := ⟨fun _ _ => 1, fun _ _ => 1, fun _ => 1, fun _ => true⟩

/-- A controller configured like Scenario A of the spec: `T = 5`,
`reward_threshold = 15`, one state component, the `control` and `validity`
action components, nothing recorded yet. -/
def baseState (T : ℕ) : AgentState :=
  { maxTimesteps := T, index := 0, episodes := 0, rewardThreshold := 15
    tracesDir := "data/traces"
    statesSpec := ["velocity"], actionsSpec := ["control", "validity"]
    statesBuffers := [], actionsBuffers := [], rewardBuffers := [], terminalBuffers := []
    recordStates := [], recordActions := [], recordTerminal := .lst [], recordReward := .lst []
    tracesDirExists := false, files := [] }

/-- Scenario A at the end of its episode: `control = [1,1,1,2,2]`,
`rewards = [1,2,3,4,5]` (the validity row was seen as all zeros by the
allocator), just before `_compute_action_validity` runs. -/
def scenarioA : AgentState :=
  { reset memZero (baseState 5) with
    statesBuffers := [("velocity", [[9, 9, 9, 9, 9]])]
    actionsBuffers := [("control", [[1, 1, 1, 2, 2]]), ("validity", [[0, 0, 0, 0, 0]])]
    rewardBuffers := [[1, 2, 3, 4, 5]]
    terminalBuffers := [[false, false, false, false, true]]
    index := 5, episodes := 1 }

/-- Scenario B at the end of its episode: `T = 4`, `rewards = [3,3,3,3]`
(mean 3, well below the threshold 15), records freshly initialised by the
reset that started the episode, just before `write_trace` runs. -/
def scenarioB : AgentState :=
  { reset memZero (baseState 4) with
    statesBuffers := [("velocity", [[10, 11, 12, 13]])]
    actionsBuffers := [("control", [[1, 1, 2, 2]]), ("validity", [[0, 0, 0, 0]])]
    rewardBuffers := [[3, 3, 3, 3]]
    terminalBuffers := [[false, false, false, true]]
    index := 4, episodes := 1 }

/-- An abandoned episode: only 2 of the `T = 5` steps were observed
(`index = 2`) when `write_trace` would run. -/
def scenarioC : AgentState :=
  { reset memZero (baseState 5) with
    statesBuffers := [("velocity", [[10, 11, 0, 0, 0]])]
    actionsBuffers := [("control", [[1, 1, 0, 0, 0]]), ("validity", [[0, 0, 0, 0, 0]])]
    rewardBuffers := [[7, 8, 0, 0, 0]]
    terminalBuffers := [[false, false, false, false, false]]
    index := 2, episodes := 1 }

/-- An episode whose control action is constant across all `T = 5`
timesteps, just before the validity pass runs. -/
def scenarioK : AgentState :=
  { reset memZero (baseState 5) with
    statesBuffers := [("velocity", [[9, 9, 9, 9, 9]])]
    actionsBuffers := [("control", [[2, 2, 2, 2, 2]]), ("validity", [[0, 0, 0, 0, 0]])]
    rewardBuffers := [[1, 2, 3, 4, 5]]
    terminalBuffers := [[false, false, false, false, true]]
    index := 5, episodes := 1 }

/-- A controller state whose accumulator already holds a concatenated
reward array of mean 3 (the only shape on which the gate can reject). -/
def scenarioR : AgentState :=
  { scenarioB with
    recordStates := [("velocity", .arr [10, 11, 12, 13])]
    recordActions := [("control", .arr [1, 1, 2, 2]), ("validity", .arr [0, 0, 0, 0])]
    recordTerminal := .arr [false, false, false, true]
    recordReward := .arr [3, 3, 3, 3] }

/-- A freshly reset controller with `T = 2` used to witness the act/observe
protocol claims. -/
def sFresh : AgentState := reset memZero (baseState 2)

/-- The controller after one `act` call on `sFresh` recording
`velocity = 9` and `control = validity = 1` at cursor 0. -/
def sFreshActed : AgentState :=
  { sFresh with
    statesBuffers := [("velocity", [[9, 0]])]
    actionsBuffers := [("control", [[1, 0]]), ("validity", [[1, 0]])] }

/-- Scenario B's state buffer rows, as a function of the component name. -/
def bufSB : String → Row := fun n => if n = "velocity" then [10, 11, 12, 13] else []

/-- Scenario B's action buffer rows, as a function of the component name. -/
def bufAB : String → Row := fun n =>
  if n = "control" then [1, 1, 2, 2] else if n = "validity" then [0, 0, 0, 0] else []

/-- Scenario C's state buffer rows, as a function of the component name. -/
def bufSC : String → Row := fun n => if n = "velocity" then [10, 11, 0, 0, 0] else []

/-- Scenario C's action buffer rows, as a function of the component name. -/
def bufAC : String → Row := fun n =>
  if n = "control" then [1, 1, 0, 0, 0] else if n = "validity" then [0, 0, 0, 0, 0] else []

/-! ## Claim theorems -/

/-- On a freshly initialised accumulator (`record_reward == []`) the gate of
`write_trace` compares `sum([]) = 0` with `threshold * len([]) = 0` and
therefore never rejects, whatever the threshold. -/
theorem gateRejects_fresh (θ : ℚ) : gateRejects (.lst []) θ = some false := by
  show some (decide ((0 : ℚ) < θ * 0)) = some false
  exact congrArg some (decide_eq_false (by simp))

/-- Key lookup skips a prefix that does not contain the key. -/
theorem lookup_append_none {α : Type} (pre l : List (String × α)) (n : String)
    (h : pre.lookup n = none) : (pre ++ l).lookup n = l.lookup n := by
  induction pre with
  | nil => rfl
  | cons p pre ih =>
      obtain ⟨k, v⟩ := p
      cases hbk : (n == k) with
      | true => simp [List.lookup, hbk] at h
      | false =>
          simp only [List.lookup, hbk] at h
          simpa [List.lookup, hbk] using ih h

/-- Key replacement distributes over a prefix that does not contain the
key. -/
theorem assocSet_append_none {α : Type} (pre l : List (String × α)) (n : String) (v : α)
    (h : pre.lookup n = none) : assocSet (pre ++ l) n v = pre ++ assocSet l n v := by
  induction pre with
  | nil => rfl
  | cons p pre ih =>
      obtain ⟨k, w⟩ := p
      cases hbk : (n == k) with
      | true => simp [List.lookup, hbk] at h
      | false =>
          simp only [List.lookup, hbk] at h
          have hk : ¬ (k = n) := fun hkn => by
            subst hkn
            simp at hbk
          simp only [List.cons_append, assocSet, if_neg hk]
          exact congrArg (List.cons (k, w)) (ih h)

/-- Concatenating a one-element record list yields its single array. -/
theorem pyConcat_singleton {α : Type} (x : List α) :
    (PyRec.lst [x]).concat = some (.arr x) := by
  simp [PyRec.concat]

/-- `concatRecords` on a dict whose entries are one-episode lists. -/
theorem concatRecords_map (spec : List String) (g : String → Row) :
    concatRecords (spec.map fun n => (n, PyRec.lst [g n]))
      = some (spec.map fun n => (n, PyRec.arr (g n))) := by
  induction spec with
  | nil => rfl
  | cons n rest ih => simp [concatRecords, pyConcat_singleton, ih]

/-- `recordArrays` on a dict of concatenated arrays. -/
theorem recordArrays_map (spec : List String) (g : String → Row) :
    recordArrays (spec.map fun n => (n, PyRec.arr (g n)))
      = some (spec.map fun n => (n, g n)) := by
  induction spec with
  | nil => rfl
  | cons n rest ih => simp [recordArrays, PyRec.asArr, ih]

/-- The append loops of `write_trace` on freshly initialised records: each
spec component's empty list receives exactly the `[0, :T]` slice of its
buffer row. -/
theorem appendRecords_fresh (bufs : List (String × List Row)) (bufR : String → Row) (T : ℕ) :
    ∀ (spec : List String) (pre : List (String × PyRec ℚ)),
      spec.Nodup →
      (∀ n ∈ spec, pre.lookup n = none) →
      (∀ n ∈ spec, bufs.lookup n = some [bufR n]) →
      appendRecords spec (pre ++ spec.map fun n => (n, PyRec.lst [])) bufs T
        = some (pre ++ spec.map fun n => (n, PyRec.lst [(bufR n).take T])) := by
  intro spec
  induction spec with
  | nil => intro pre _ _ _; simp [appendRecords]
  | cons n rest ih =>
      intro pre hnd hpre hbufs
      have hnotmem : n ∉ rest := (List.nodup_cons.mp hnd).1
      have h1 : ((pre ++ (n, PyRec.lst []) :: rest.map fun m => (m, PyRec.lst [])).lookup n)
          = some (PyRec.lst []) := by
        rw [lookup_append_none _ _ _ (hpre n (by simp))]
        simp [List.lookup]
      have h2 : bufs.lookup n = some [bufR n] := hbufs n (by simp)
      have h3 : assocSet (pre ++ (n, PyRec.lst []) :: rest.map fun m => (m, PyRec.lst []))
            n (PyRec.lst [(bufR n).take T])
          = (pre ++ [(n, PyRec.lst [(bufR n).take T])]) ++ rest.map fun m => (m, PyRec.lst []) := by
        rw [assocSet_append_none _ _ _ _ (hpre n (by simp))]
        simp [assocSet]
      have hih := ih (pre ++ [(n, PyRec.lst [(bufR n).take T])])
        (List.nodup_cons.mp hnd).2
        (fun m hm => by
          rw [lookup_append_none _ _ _ (hpre m (by simp [hm]))]
          have hmn : (m == n) = false :=
            beq_false_of_ne fun hh => hnotmem (hh ▸ hm)
          simp [List.lookup, hmn])
        (fun m hm => hbufs m (by simp [hm]))
      simp only [List.map_cons, appendRecords, h1, h2, Option.some_bind]
      show appendRecords rest (assocSet _ n (PyRec.lst [(bufR n).take T])) bufs T = _
      rw [h3, hih]
      simp

/-- Full evaluation of `write_trace` on a state whose record accumulators
are exactly as `init_records` left them: the gate passes (`0 < θ·0` is
false), each buffer is appended sliced to `[0, :max_timesteps]`, the
accumulators end up holding the per-component concatenations, the traces
directory exists afterwards, and exactly one archive
`trace-<episodes>-<timestamp>.npz` is appended to the written files. -/
theorem writeTrace_fresh_eval
    (s : AgentState) (timestamp : String) (bufS bufA : String → Row)
    (rrow : Row) (trow : List Bool) (rrest : List Row) (trest : List (List Bool))
    (hnds : s.statesSpec.Nodup) (hnda : s.actionsSpec.Nodup)
    (hrs : s.recordStates = s.statesSpec.map fun n => (n, PyRec.lst []))
    (hra : s.recordActions = s.actionsSpec.map fun n => (n, PyRec.lst []))
    (hrt : s.recordTerminal = .lst [])
    (hrr : s.recordReward = .lst [])
    (hbs : ∀ n ∈ s.statesSpec, s.statesBuffers.lookup n = some [bufS n])
    (hba : ∀ n ∈ s.actionsSpec, s.actionsBuffers.lookup n = some [bufA n])
    (hrb : s.rewardBuffers = rrow :: rrest)
    (htb : s.terminalBuffers = trow :: trest) :
    writeTrace timestamp s = some
      { s with
        recordStates := s.statesSpec.map fun n => (n, PyRec.arr ((bufS n).take s.maxTimesteps))
        recordActions := s.actionsSpec.map fun n => (n, PyRec.arr ((bufA n).take s.maxTimesteps))
        recordTerminal := .arr (trow.take s.maxTimesteps)
        recordReward := .arr (rrow.take s.maxTimesteps)
        tracesDirExists := true
        files := s.files ++
          [{ dir := s.tracesDir
             name := "trace-" ++ toString s.episodes ++ "-" ++ timestamp ++ ".npz"
             states := s.statesSpec.map fun n => (n, (bufS n).take s.maxTimesteps)
             actions := s.actionsSpec.map fun n => (n, (bufA n).take s.maxTimesteps)
             terminal := trow.take s.maxTimesteps
             reward := rrow.take s.maxTimesteps }] } := by
  have hg : gateRejects s.recordReward s.rewardThreshold = some false := by
    rw [hrr]; exact gateRejects_fresh _
  have hS := appendRecords_fresh s.statesBuffers bufS s.maxTimesteps s.statesSpec []
    hnds (by simp) hbs
  have hA := appendRecords_fresh s.actionsBuffers bufA s.maxTimesteps s.actionsSpec []
    hnda (by simp) hba
  simp only [List.nil_append] at hS hA
  unfold writeTrace
  rw [hg]
  rw [hrs, hra, hrt, hrr, hrb, htb]
  simp only [Option.bind_eq_bind, Option.some_bind, Bool.false_eq_true, if_false,
    hS, hA, sliceRow0, List.head?_cons, Option.map_some, PyRec.push, List.nil_append,
    concatRecords_map, recordArrays_map, pyConcat_singleton, PyRec.asArr]
  rfl

/-- Claim C1 (code bug evidence).  On Scenario A's episode
(`control = [1,1,1,2,2]`), the validity pass of the source writes
`validity = 1` at index 0 and touches no other index: its loop runs over
`range(len(control_buffer))`, and `len` of the `(1, T)`-shaped numpy buffer
is the leading axis, 1 — not `T`.  The claim's forward-scan semantics would
instead give `validity = [3, 2, 1, 2, 1]`; in particular the claimed
`validity[0] = 3` differs from the computed `1`. -/
theorem c1_validity_only_index_zero :
    (computeActionValidity clampedSum scenarioA).map
        (fun s => s.actionsBuffers.lookup "validity")
      = some (some [[1, 0, 0, 0, 0]])
    ∧ (List.range 5).map (claimedValidity [1, 1, 1, 2, 2]) = [3, 2, 1, 2, 1]
    ∧ ((1 : ℚ) : ℚ) ≠ 3 := by
  refine ⟨rfl, rfl, by norm_num⟩

/-- Claim C2 (code bug evidence).  On Scenario A's episode
(`rewards = [1,2,3,4,5]`), the reward buffer is completely unchanged by the
validity pass — the aggregation write is dead code, because the scan loop
`range(i, len(control_buffer) - 1)` is `range(0, 0)`.  The claim instead
expects the clamped run aggregate `min(150, max(-2000, 1+2)) = 3` to be
written at indices 0 and 1, i.e. rewards `[3, 3, 3, 4, 5]`. -/
theorem c2_rewards_never_aggregated :
    (computeActionValidity clampedSum scenarioA).map (fun s => s.rewardBuffers)
      = some [[1, 2, 3, 4, 5]]
    ∧ clampedSum [1, 2] 150 (-2000) = 3
    ∧ ([[1, 2, 3, 4, 5]] : List Row) ≠ [[3, 3, 3, 4, 5]] := by
  refine ⟨rfl, by norm_num [clampedSum], by decide⟩

/-- Claim C3 (code bug evidence).  Scenario B: threshold 15, an episode of
length 4 with rewards `[3, 3, 3, 3]` (mean 3, sum 12 < 15·4).  The gate of
`write_trace` compares `sum(self.record_reward)` with
`threshold * len(self.record_reward)` — but `record_reward` is the
accumulator, freshly re-initialised to `[]` by the reset that started the
episode and only appended to *after* the gate, so the comparison is
`0 < 0`, the gate passes, and the archive is written even though the
episode's mean reward is far below the threshold. -/
theorem c3_low_reward_episode_is_still_written :
    gateRejects scenarioB.recordReward scenarioB.rewardThreshold = some false
    ∧ List.sum scenarioB.rewardBuffers.flatten < scenarioB.rewardThreshold * 4
    ∧ (writeTrace "20261012-000000" scenarioB).map (fun s => s.files.map (·.name))
        = some ["trace-1-20261012-000000.npz"] := by
  have hg : gateRejects scenarioB.recordReward scenarioB.rewardThreshold = some false :=
    gateRejects_fresh _
  refine ⟨hg, ?_, ?_⟩
  · show List.sum [(3 : ℚ), 3, 3, 3] < 15 * 4
    norm_num
  · unfold writeTrace
    rw [hg]
    rfl

/-- Claim C7.  For every episode whose `control` action is constant across
all `T` timesteps, the validity pass leaves the reward buffer unchanged.
(In the source this holds for *every* control sequence: the buffers have
numpy shape `(1, T)`, so the scan `range(i, len(control_buffer) - 1)` is
empty and the aggregation write never fires.) -/
theorem c7_constant_control_keeps_rewards
    (s : AgentState) (aggregate : List ℚ → ℚ → ℚ → ℚ)
    (ctrlRow vrow rrow : Row) (vrest rrest : List Row)
    (hc : s.actionsBuffers.lookup "control" = some [ctrlRow])
    (hv : s.actionsBuffers.lookup "validity" = some (vrow :: vrest))
    (hvlen : 0 < vrow.length)
    (_hlen : ctrlRow.length = s.maxTimesteps)
    (_hconst : ∀ x ∈ ctrlRow, ∀ y ∈ ctrlRow, x = y)
    (hrb : s.rewardBuffers = rrow :: rrest) :
    ∃ s', computeActionValidity aggregate s = some s'
      ∧ s'.rewardBuffers = s.rewardBuffers := by
  refine ⟨{ s with
            rewardBuffers := rrow :: rrest
            actionsBuffers := assocSet s.actionsBuffers "validity"
              ((vrow.set 0 (((1 : ℕ) : ℚ))) :: vrest) }, ?_, ?_⟩
  · unfold computeActionValidity
    rw [hc, hv, hrb]
    simp [cavLoop, cavScan, pyRange, setNth?, hvlen, List.range_succ]
  · exact hrb.symm

/-- Witness for **C7**: the constant-control episode `scenarioK`
(`control = [2,2,2,2,2]`, `rewards = [1,2,3,4,5]`). -/
theorem c7_witness :
    ∃ s', computeActionValidity clampedSum scenarioK = some s'
      ∧ s'.rewardBuffers = scenarioK.rewardBuffers :=
  c7_constant_control_keeps_rewards scenarioK clampedSum
    [2, 2, 2, 2, 2] [0, 0, 0, 0, 0] [1, 2, 3, 4, 5] [] []
    rfl rfl (by norm_num) rfl (by decide) rfl

/-- Claim C10.  Whenever the persistence gate rejects (the comparison on
`agents.py:810` evaluates to true), `write_trace` only formats and prints a
message and returns: the resulting state — record accumulators, directory
flag, written files, cursor, counters — is exactly the state before the
call. -/
theorem c10_rejected_write_changes_nothing (s : AgentState) (timestamp : String)
    (h : gateRejects s.recordReward s.rewardThreshold = some true) :
    writeTrace timestamp s = some s := by
  unfold writeTrace
  rw [h]
  rfl

/-- Witness for **C10**: a controller whose accumulator holds the
concatenated rewards `[3,3,3,3]` (sum 12, threshold 15·4 = 60) is rejected
and left untouched. -/
theorem c10_witness :
    gateRejects scenarioR.recordReward scenarioR.rewardThreshold = some true
    ∧ writeTrace "20261012-000000" scenarioR = some scenarioR := by
  have hg : gateRejects scenarioR.recordReward scenarioR.rewardThreshold = some true := by
    show some (decide (List.sum [(3 : ℚ), 3, 3, 3]
        < 15 * ((List.length [(3 : ℚ), 3, 3, 3] : ℕ) : ℚ))) = some true
    exact congrArg some (decide_eq_true (by norm_num))
  exact ⟨hg, c10_rejected_write_changes_nothing scenarioR "20261012-000000" hg⟩

/-- Claim C6.  The two-phase protocol: `act` records states and actions at
the current cursor, returns the actions, and leaves the cursor — and every
other controller field outside the state/action buffers — unchanged (the
`self.index` advance on line 804 is commented out); a non-terminal
`observe` writes the reward and terminal flag at the current cursor and
advances the cursor by exactly one, everything else (episode counter,
accumulators, files) untouched, and touches no buffer slot other than the
one at the cursor. -/
theorem c6_act_keeps_cursor_observe_advances
    (s : AgentState) (stateVals actionVals : List (String × ℚ))
    (aggregate : List ℚ → ℚ → ℚ → ℚ) (timestamp : String) (reward : ℚ) :
    (∀ s' a', act stateVals actionVals s = some (s', a') →
        s'.index = s.index ∧ a' = actionVals
        ∧ s'.episodes = s.episodes
        ∧ s'.rewardBuffers = s.rewardBuffers
        ∧ s'.terminalBuffers = s.terminalBuffers
        ∧ s'.recordStates = s.recordStates
        ∧ s'.recordReward = s.recordReward
        ∧ s'.files = s.files)
    ∧ (∀ rb tb, updateRow0 s.rewardBuffers s.index reward = some rb →
        updateRow0 s.terminalBuffers s.index false = some tb →
        observe aggregate timestamp reward false s
          = some { s with rewardBuffers := rb, terminalBuffers := tb, index := s.index + 1 })
    ∧ (∀ rb k, updateRow0 s.rewardBuffers s.index reward = some rb → k ≠ s.index →
        rb.head?.bind (fun row => row.get? k)
          = s.rewardBuffers.head?.bind (fun row => row.get? k)
        ∧ rb.tail = s.rewardBuffers.tail) := by
  refine ⟨?_, ?_, ?_⟩
  · intro s' a' h
    cases hsb : recordInto s.statesSpec stateVals s.statesBuffers s.index with
    | none => simp [act, hsb] at h
    | some sb =>
        cases hab : recordInto s.actionsSpec actionVals s.actionsBuffers s.index with
        | none => simp [act, hsb, hab] at h
        | some ab =>
            simp only [act, hsb, hab, Option.bind_eq_bind, Option.some_bind,
              Option.some_inj, Prod.mk.injEq] at h
            obtain ⟨h1, h2⟩ := h
            subst h1
            subst h2
            exact ⟨rfl, rfl, rfl, rfl, rfl, rfl, rfl, rfl⟩
  · intro rb tb h1 h2
    simp [observe, h1, h2]
  · intro rb k h1 hk
    cases hrow : s.rewardBuffers with
    | nil => rw [hrow] at h1; exact Option.noConfusion h1
    | cons row rest =>
        rw [hrow] at h1
        simp only [updateRow0, setNth?] at h1
        by_cases hlt : s.index < row.length
        · rw [if_pos hlt] at h1
          have h1' : row.set s.index reward :: rest = rb := Option.some.inj h1
          subst h1'
          refine ⟨?_, rfl⟩
          simp [List.getElem?_set_ne (Ne.symm hk)]
        · rw [if_neg hlt] at h1
          exact Option.noConfusion h1

/-- Witness for **C6**: on the fresh `T = 2` controller, `act` records at
cursor 0 without moving it, and a non-terminal `observe 7` writes reward 7
and terminal `false` at cursor 0 and moves the cursor to 1. -/
theorem c6_witness :
    (sFreshActed.index = sFresh.index ∧ sFreshActed.files = sFresh.files)
    ∧ observe clampedSum "20261012-000000" 7 false sFresh
        = some { sFresh with
                 rewardBuffers := [[7, 0]]
                 terminalBuffers := [[false, false]]
                 index := sFresh.index + 1 } := by
  have H := c6_act_keeps_cursor_observe_advances sFresh [("velocity", 9)]
    [("control", 1), ("validity", 1)] clampedSum "20261012-000000" 7
  refine ⟨?_, ?_⟩
  · obtain ⟨hi, _, _, _, _, _, _, hf⟩ :=
      H.1 sFreshActed [("control", 1), ("validity", 1)] rfl
    exact ⟨hi, hf⟩
  · exact H.2.1 [[7, 0]] [[false, false]] rfl rfl

/-- Claim C8.  Traces are only ever written inside a terminal `observe`:
`reset` discards the unfinished episode — the written-file list and the
directory flag are untouched, the cursor returns to 0, the record
accumulators are re-initialised to fresh empty lists and the buffers are
freshly allocated — and neither `act` nor a non-terminal `observe` touches
the filesystem. -/
theorem c8_reset_discards_without_writing
    (s : AgentState) (mem : UninitMem) (aggregate : List ℚ → ℚ → ℚ → ℚ)
    (timestamp : String) (reward : ℚ) (stateVals actionVals : List (String × ℚ)) :
    (reset mem s).files = s.files
    ∧ (reset mem s).tracesDirExists = s.tracesDirExists
    ∧ (reset mem s).index = 0
    ∧ (reset mem s).recordReward = .lst []
    ∧ (reset mem s).recordTerminal = .lst []
    ∧ (reset mem s).recordStates = s.statesSpec.map (fun n => (n, PyRec.lst []))
    ∧ (reset mem s).recordActions = s.actionsSpec.map (fun n => (n, PyRec.lst []))
    ∧ (reset mem s).rewardBuffers = [(List.range s.maxTimesteps).map mem.r]
    ∧ (reset mem s).terminalBuffers = [(List.range s.maxTimesteps).map mem.t]
    ∧ (∀ s' a', act stateVals actionVals s = some (s', a') →
        s'.files = s.files ∧ s'.tracesDirExists = s.tracesDirExists)
    ∧ (∀ s', observe aggregate timestamp reward false s = some s' →
        s'.files = s.files ∧ s'.tracesDirExists = s.tracesDirExists) := by
  refine ⟨rfl, rfl, rfl, rfl, rfl, rfl, rfl, rfl, rfl, ?_, ?_⟩
  · intro s' a' h
    cases hsb : recordInto s.statesSpec stateVals s.statesBuffers s.index with
    | none => simp [act, hsb] at h
    | some sb =>
        cases hab : recordInto s.actionsSpec actionVals s.actionsBuffers s.index with
        | none => simp [act, hsb, hab] at h
        | some ab =>
            simp only [act, hsb, hab, Option.bind_eq_bind, Option.some_bind,
              Option.some_inj, Prod.mk.injEq] at h
            obtain ⟨h1, h2⟩ := h
            subst h1
            exact ⟨rfl, rfl⟩
  · intro s' h
    cases hrb : updateRow0 s.rewardBuffers s.index reward with
    | none => simp [observe, hrb] at h
    | some rb =>
        cases htb : updateRow0 s.terminalBuffers s.index false with
        | none => simp [observe, hrb, htb] at h
        | some tb =>
            simp only [observe, hrb, htb, Option.bind_eq_bind, Option.some_bind,
              Bool.false_eq_true, if_false, Option.some_inj] at h
            subst h
            exact ⟨rfl, rfl⟩

/-- Witness for **C8**: abandoning `scenarioC` (2 of 5 steps observed) by a
direct `reset` writes nothing and yields cursor 0 with fresh accumulators;
an `act` and a non-terminal `observe` on `scenarioC` also write nothing. -/
theorem c8_witness :
    (reset memZero scenarioC).files = scenarioC.files
    ∧ (reset memZero scenarioC).index = 0
    ∧ (reset memZero scenarioC).recordReward = .lst []
    ∧ (sFreshActed.files = sFresh.files ∧ sFreshActed.tracesDirExists = sFresh.tracesDirExists)
    ∧ ({ sFresh with
         rewardBuffers := [[7, 0]]
         terminalBuffers := [[false, false]]
         index := sFresh.index + 1 } : AgentState).files = sFresh.files := by
  have H := c8_reset_discards_without_writing scenarioC memZero clampedSum
    "20261012-000000" 7 [("velocity", 9)] [("control", 1), ("validity", 1)]
  have H2 := c8_reset_discards_without_writing sFresh memZero clampedSum
    "20261012-000000" 7 [("velocity", 9)] [("control", 1), ("validity", 1)]
  obtain ⟨hf, _, hi, hr, _⟩ := H
  obtain ⟨_, _, _, _, _, _, _, _, _, hact2, hobs2⟩ := H2
  exact ⟨hf, hi, hr,
    hact2 sFreshActed [("control", 1), ("validity", 1)] rfl,
    (hobs2 _ rfl).1⟩

/-- Counterexample for **C5**.  `init_buffers` allocates with
`np.ndarray(shape=...)`, which does *not* zero the memory: under an
allocator that hands out ones, every element of the freshly allocated
reward buffer (and of the `velocity` state buffer) is 1, not 0. -/
theorem c5_counterexample :
    (initBuffers memOne (baseState 2)).rewardBuffers = [[1, 1]]
    ∧ (initBuffers memOne (baseState 2)).statesBuffers = [("velocity", [[1, 1]])]
    ∧ (initBuffers memOne (baseState 2)).terminalBuffers = [[true, true]]
    ∧ ((1 : ℚ) ≠ 0 ∧ true ≠ false) :=
  ⟨rfl, rfl, rfl, by norm_num, by decide⟩

/-- Claim C5, amended.  Immediately after `init_buffers`, every named state
and action buffer has numpy shape `(1, T)` (one row of `max_timesteps`
slots per component), and the reward and terminal buffers are single rows
of length `T`; the *contents*, however, are exactly whatever values the
allocator's uninitialised memory held — they need not be zero. -/
theorem c5_buffers_have_shape_but_arbitrary_contents (mem : UninitMem) (s : AgentState) :
    (initBuffers mem s).rewardBuffers.map List.length = [s.maxTimesteps]
    ∧ (initBuffers mem s).terminalBuffers.map List.length = [s.maxTimesteps]
    ∧ (initBuffers mem s).statesBuffers.map (fun p => (p.1, p.2.map List.length))
        = s.statesSpec.map (fun n => (n, [s.maxTimesteps]))
    ∧ (initBuffers mem s).actionsBuffers.map (fun p => (p.1, p.2.map List.length))
        = s.actionsSpec.map (fun n => (n, [s.maxTimesteps]))
    ∧ (initBuffers mem s).rewardBuffers = [(List.range s.maxTimesteps).map mem.r]
    ∧ (initBuffers mem s).terminalBuffers = [(List.range s.maxTimesteps).map mem.t] := by
  refine ⟨by simp [initBuffers], by simp [initBuffers], ?_, ?_, rfl, rfl⟩
  · simp [initBuffers]
  · simp [initBuffers]

/-- Counterexample for **C4**.  `write_trace` sets its local `index` to
`self.max_timesteps` (line 808), not to the step cursor `self.index`: on the
abandoned-at-2-of-5-steps state `scenarioC` the appended reward array has
length 5 (the full capacity, including the 3 never-observed slots), not the
cursor value 2 the claim requires. -/
theorem c4_counterexample :
    scenarioC.index = 2
    ∧ (writeTrace "20261012-000000" scenarioC).map (fun s => s.recordReward)
        = some (.arr [7, 8, 0, 0, 0])
    ∧ (writeTrace "20261012-000000" scenarioC).map
        (fun s => s.recordStates.lookup "velocity") = some (some (.arr [10, 11, 0, 0, 0]))
    ∧ ([(7 : ℚ), 8, 0, 0, 0].length ≠ scenarioC.index) := by
  have hg : gateRejects scenarioC.recordReward scenarioC.rewardThreshold = some false :=
    gateRejects_fresh _
  refine ⟨rfl, ?_, ?_, by decide⟩
  · unfold writeTrace
    rw [hg]
    rfl
  · unfold writeTrace
    rw [hg]
    rfl

/-- Claim C4, amended.  When an accepted episode is appended to the
accumulators, every state, action, terminal and reward array is sliced to
the full capacity `max_timesteps` — `write_trace` shadows the cursor with
`index = self.max_timesteps` — regardless of how many steps were actually
observed (the cursor `s.index` is arbitrary here and absent from the
conclusion). -/
theorem c4_arrays_sliced_to_full_capacity
    (s : AgentState) (timestamp : String) (bufS bufA : String → Row)
    (rrow : Row) (trow : List Bool) (rrest : List Row) (trest : List (List Bool))
    (hnds : s.statesSpec.Nodup) (hnda : s.actionsSpec.Nodup)
    (hrs : s.recordStates = s.statesSpec.map fun n => (n, PyRec.lst []))
    (hra : s.recordActions = s.actionsSpec.map fun n => (n, PyRec.lst []))
    (hrt : s.recordTerminal = .lst [])
    (hrr : s.recordReward = .lst [])
    (hbs : ∀ n ∈ s.statesSpec, s.statesBuffers.lookup n = some [bufS n])
    (hba : ∀ n ∈ s.actionsSpec, s.actionsBuffers.lookup n = some [bufA n])
    (hrb : s.rewardBuffers = rrow :: rrest)
    (htb : s.terminalBuffers = trow :: trest) :
    ∃ s', writeTrace timestamp s = some s'
      ∧ s'.recordReward = .arr (rrow.take s.maxTimesteps)
      ∧ s'.recordTerminal = .arr (trow.take s.maxTimesteps)
      ∧ s'.recordStates = s.statesSpec.map
          (fun n => (n, PyRec.arr ((bufS n).take s.maxTimesteps)))
      ∧ s'.recordActions = s.actionsSpec.map
          (fun n => (n, PyRec.arr ((bufA n).take s.maxTimesteps))) :=
  ⟨_, writeTrace_fresh_eval s timestamp bufS bufA rrow trow rrest trest
      hnds hnda hrs hra hrt hrr hbs hba hrb htb, rfl, rfl, rfl, rfl⟩

/-- Witness for the amended **C4**: on `scenarioC` (cursor 2, capacity 5)
every appended array is the buffer row taken to length 5. -/
theorem c4_witness :
    ∃ s', writeTrace "20261012-000000" scenarioC = some s'
      ∧ s'.recordReward = .arr (([7, 8, 0, 0, 0] : Row).take scenarioC.maxTimesteps)
      ∧ s'.recordTerminal
          = .arr ([false, false, false, false, false].take scenarioC.maxTimesteps)
      ∧ s'.recordStates = scenarioC.statesSpec.map
          (fun n => (n, PyRec.arr ((bufSC n).take scenarioC.maxTimesteps)))
      ∧ s'.recordActions = scenarioC.actionsSpec.map
          (fun n => (n, PyRec.arr ((bufAC n).take scenarioC.maxTimesteps))) :=
  c4_arrays_sliced_to_full_capacity scenarioC "20261012-000000" bufSC bufAC
    [7, 8, 0, 0, 0] [false, false, false, false, false] [] []
    (by decide) (by decide) rfl rfl rfl rfl (by decide) (by decide) rfl rfl

/-- Claim C9.  For every accepted flush from freshly initialised accumulators
(the reachable record shape at a terminal step), `write_trace` concatenates
the accumulated episode per named component, marks the traces directory as
existing (creating it when absent), and appends exactly one compressed
archive named `trace-<episodes>-<timestamp>.npz` holding every named state
array, every named action array, `terminal` and `reward`. -/
theorem c9_accepted_flush_writes_one_archive
    (s : AgentState) (timestamp : String) (bufS bufA : String → Row)
    (rrow : Row) (trow : List Bool) (rrest : List Row) (trest : List (List Bool))
    (hnds : s.statesSpec.Nodup) (hnda : s.actionsSpec.Nodup)
    (hrs : s.recordStates = s.statesSpec.map fun n => (n, PyRec.lst []))
    (hra : s.recordActions = s.actionsSpec.map fun n => (n, PyRec.lst []))
    (hrt : s.recordTerminal = .lst [])
    (hrr : s.recordReward = .lst [])
    (hbs : ∀ n ∈ s.statesSpec, s.statesBuffers.lookup n = some [bufS n])
    (hba : ∀ n ∈ s.actionsSpec, s.actionsBuffers.lookup n = some [bufA n])
    (hrb : s.rewardBuffers = rrow :: rrest)
    (htb : s.terminalBuffers = trow :: trest) :
    writeTrace timestamp s = some
      { s with
        recordStates := s.statesSpec.map fun n => (n, PyRec.arr ((bufS n).take s.maxTimesteps))
        recordActions := s.actionsSpec.map fun n => (n, PyRec.arr ((bufA n).take s.maxTimesteps))
        recordTerminal := .arr (trow.take s.maxTimesteps)
        recordReward := .arr (rrow.take s.maxTimesteps)
        tracesDirExists := true
        files := s.files ++
          [{ dir := s.tracesDir
             name := "trace-" ++ toString s.episodes ++ "-" ++ timestamp ++ ".npz"
             states := s.statesSpec.map fun n => (n, (bufS n).take s.maxTimesteps)
             actions := s.actionsSpec.map fun n => (n, (bufA n).take s.maxTimesteps)
             terminal := trow.take s.maxTimesteps
             reward := rrow.take s.maxTimesteps }] } :=
  writeTrace_fresh_eval s timestamp bufS bufA rrow trow rrest trest
    hnds hnda hrs hra hrt hrr hbs hba hrb htb

/-- Witness for **C9**: flushing Scenario B's accepted episode produces the
single archive `trace-1-20261012-000000.npz` with the `velocity`, `control`
and `validity` arrays plus `terminal` and `reward`. -/
theorem c9_witness :
    writeTrace "20261012-000000" scenarioB = some
      { scenarioB with
        recordStates := scenarioB.statesSpec.map
          (fun n => (n, PyRec.arr ((bufSB n).take scenarioB.maxTimesteps)))
        recordActions := scenarioB.actionsSpec.map
          (fun n => (n, PyRec.arr ((bufAB n).take scenarioB.maxTimesteps)))
        recordTerminal := .arr ([false, false, false, true].take scenarioB.maxTimesteps)
        recordReward := .arr (([3, 3, 3, 3] : Row).take scenarioB.maxTimesteps)
        tracesDirExists := true
        files := scenarioB.files ++
          [{ dir := scenarioB.tracesDir
             name := "trace-" ++ toString scenarioB.episodes ++ "-" ++ "20261012-000000" ++ ".npz"
             states := scenarioB.statesSpec.map
               (fun n => (n, (bufSB n).take scenarioB.maxTimesteps))
             actions := scenarioB.actionsSpec.map
               (fun n => (n, (bufAB n).take scenarioB.maxTimesteps))
             terminal := [false, false, false, true].take scenarioB.maxTimesteps
             reward := ([3, 3, 3, 3] : Row).take scenarioB.maxTimesteps }] } :=
  c9_accepted_flush_writes_one_archive scenarioB "20261012-000000" bufSB bufAB
    [3, 3, 3, 3] [false, false, false, true] [] []
    (by decide) (by decide) rfl rfl rfl rfl (by decide) (by decide) rfl rfl
